import Mathlib

/-!
Verification development for the LiminalAgent repository: a LangGraph-based
conversation loop (`src/agent.py`), its tool registry (`src/tools.py`),
environment-sourced configuration (`src/config.py`, `src/main.py`) and the
standalone Tabscanner receipt poller
(`src/nim-go-sdk/examples/hackathon-starter/receipt.py`).

Modelling conventions:
* Python lists of langchain messages become `List Message`; the three message
  classes that occur (`HumanMessage`, `AIMessage`, `ToolMessage`) become the
  three constructors of `Message`.
* The external language model (`self.llm_with_tools.invoke`) is an oracle
  parameter `List Message → String × List ToolCall` giving the reply content
  and its requested tool calls.
* The system clock read by `get_current_time` is a parameter (`Env.now`).
* The compiled LangGraph state machine (entry point `agent`, conditional edge
  `agent →(continue)→ tools / →(end)→ END`, fixed edge `tools → agent`) is
  embedded as the recursive function `runGraph`.  Recursion is bounded by a
  `fuel` parameter that is purely a modelling device: `none` means the loop is
  still running after `fuel` rounds.  The repository's own code imposes no
  round cap (engine-level defaults of the LangGraph library are not part of
  this repository and are not modelled).
* Floats are modelled as exact rationals.  Every Python float is a dyadic
  rational, so the values are exactly representable; float *rounding* of
  arithmetic is not modelled, but every verified claim evaluates only
  expressions whose float results are exact.
-/

namespace Liminal

/-- A model-issued tool invocation: `name`, a single string argument (every
tool of `src/tools.py` takes at most one string argument), and the langchain
tool-call id used to tag the corresponding `ToolMessage`. -/
structure ToolCall where
  name : String
  arg : String
  id : String
deriving DecidableEq, Repr

/-- One conversation turn, mirroring the three langchain message classes used
by `src/agent.py`: `HumanMessage`, `AIMessage` (which carries `tool_calls`),
and `ToolMessage` (which carries `tool_call_id`). -/
inductive Message where
  | human (content : String)
  | ai (content : String) (tool_calls : List ToolCall)
  | tool (content : String) (tool_call_id : String)
deriving DecidableEq, Repr

/-- Ambient effects read by the tools: the formatted value of
`datetime.now().strftime("%Y-%m-%d %H:%M:%S")` in `get_current_time`. -/
structure Env where
  now : String
deriving DecidableEq, Repr

end Liminal

namespace Liminal

/-! ## `src/tools.py`: `search_knowledge_base` and `text_analysis` -/

/-- The Python fact string of the mock knowledge base in
`search_knowledge_base` (`src/tools.py`). -/
def python_fact : String :=
  "Python is a high-level, interpreted programming language known for its simplicity and readability."

/-- The LangGraph fact string of the mock knowledge base. -/
def langgraph_fact : String :=
  "LangGraph is a library for building stateful, multi-actor applications with LLMs, using graph-based workflows."

/-- The AI fact string of the mock knowledge base. -/
def ai_fact : String :=
  "Artificial Intelligence (AI) refers to the simulation of human intelligence in machines programmed to think and learn."

/-- The `knowledge_base` dict of `search_knowledge_base`, as an association
list in Python dict (insertion) order: python, langgraph, ai. -/
def knowledge_base : List (String × String) :=
  [("python", python_fact), ("langgraph", langgraph_fact), ("ai", ai_fact)]

/-- Python `str.lower()` on one character (ASCII range; the knowledge-base
keys and every verified query are ASCII). -/
def charLower (c : Char) : Char :=
  if 'A' ≤ c ∧ c ≤ 'Z' then Char.ofNat (c.toNat + 32) else c

/-- Python `query.lower()`. -/
def strToLower (s : String) : String :=
  String.mk (s.toList.map charLower)

/-- `needle` occurs as a contiguous sublist of `hay`. -/
def subOccurs (needle : List Char) : List Char → Bool
  | [] => needle.isEmpty
  | c :: t => needle.isPrefixOf (c :: t) || subOccurs needle t

/-- Python `key in query_lower` on strings: substring containment. -/
def strContainsSub (hay needle : String) : Bool :=
  subOccurs needle.toList hay.toList

/-- `search_knowledge_base` (`src/tools.py` lines 59-82): lowercase the query,
return the value of the first key (in dict order) that is a substring of the
lowered query, else the not-found sentinel. -/
def search_knowledge_base (query : String) : String :=
  let query_lower := strToLower query
  match knowledge_base.find? (fun kv => strContainsSub query_lower kv.1) with
  | some kv => kv.2
  | none => "No information found for query: " ++ query

/-- Word accumulator for `pySplit`: `acc` holds the current word reversed. -/
def pyWords (acc : List Char) : List Char → List String
  | [] => if acc.isEmpty then [] else [String.mk acc.reverse]
  | c :: cs =>
    if c.isWhitespace then
      if acc.isEmpty then pyWords [] cs
      else String.mk acc.reverse :: pyWords [] cs
    else pyWords (c :: acc) cs

/-- Python `text.split()` with no argument: split on whitespace runs,
dropping empty pieces. -/
def pySplit (text : String) : List String :=
  pyWords [] text.toList

/-- `words = text.split(); word_count = len(words)` in `text_analysis`. -/
def word_count (text : String) : Nat :=
  (pySplit text).length

/-- `char_count = len(text)` in `text_analysis`. -/
def char_count (text : String) : Nat :=
  text.length

/-- `char_count_no_spaces = len(text.replace(" ", ""))` in `text_analysis`:
removing every space character and counting is dropping spaces from the
character list. -/
def char_count_no_spaces (text : String) : Nat :=
  (text.toList.filter (fun c => c ≠ ' ')).length

/-- `sentence_count = text.count(".") + text.count("!") + text.count("?")`
in `text_analysis`. -/
def sentence_count (text : String) : Nat :=
  text.toList.count '.' + text.toList.count '!' + text.toList.count '?'

/-- Exact rational arithmetic, kernel-executable.  (The library's `Rat.add`,
`Rat.sub`, `Rat.mul`, `Rat.div` are marked irreducible, which blocks
evaluation inside proofs; these produce the same normalised rationals
through `mkRat`.) -/
def ratAdd (a b : ℚ) : ℚ :=
  mkRat (a.num * (b.den : ℤ) + b.num * (a.den : ℤ)) (a.den * b.den)

/-- Exact rational subtraction through `mkRat`. -/
def ratSub (a b : ℚ) : ℚ :=
  mkRat (a.num * (b.den : ℤ) - b.num * (a.den : ℤ)) (a.den * b.den)

/-- Exact rational multiplication through `mkRat`. -/
def ratMul (a b : ℚ) : ℚ :=
  mkRat (a.num * b.num) (a.den * b.den)

/-- Exact rational negation through `mkRat`. -/
def ratNeg (a : ℚ) : ℚ :=
  mkRat (-a.num) a.den

/-- Exact rational division through `mkRat` (callers guard the zero
divisor). -/
def ratDiv (a b : ℚ) : ℚ :=
  if 0 ≤ b.num then mkRat (a.num * (b.den : ℤ)) (a.den * b.num.toNat)
  else mkRat (-(a.num * (b.den : ℤ))) (a.den * (-b.num).toNat)

/-- Round a rational to the nearest integer, ties to even — the rounding of
Python `round` and of `format(x, ".2f")` on exactly representable values. -/
def roundHalfEven (q : ℚ) : ℤ :=
  let f : ℤ := q.floor
  let r : ℚ := ratSub q (f : ℚ)
  if Rat.blt r (mkRat 1 2) then f
  else if Rat.blt (mkRat 1 2) r then f + 1
  else if f % 2 = 0 then f else f + 1

/-- Python `f"{q:.2f}"` on an exactly represented value: two decimal places,
ties to even.  (Double rounding noise of binary floats is not modelled; the
verified claims only evaluate this on exact values.) -/
def formatF2 (q : ℚ) : String :=
  let c : ℤ := roundHalfEven (ratMul q 100)
  let sign := if c < 0 then "-" else ""
  let a : ℕ := c.natAbs
  let ip : ℕ := a / 100
  let fp : ℕ := a % 100
  sign ++ toString ip ++ "." ++ (if fp < 10 then "0" else "") ++ toString fp

/-- `text_analysis` (`src/tools.py` lines 85-110): the formatted multi-line
report, after the trailing `.strip()` of the f-string (which removes the
leading and trailing newline of the triple-quoted literal). -/
def text_analysis (text : String) : String :=
  let wc := word_count text
  let cc := char_count text
  let ccns := char_count_no_spaces text
  let sc := sentence_count text
  let avg : ℚ := mkRat (ccns : ℤ) (max wc 1)
  "Text Analysis Results:\n- Word count: " ++ toString wc ++
    "\n- Character count: " ++ toString cc ++
    "\n- Characters (no spaces): " ++ toString ccns ++
    "\n- Estimated sentences: " ++ toString sc ++
    "\n- Average word length: " ++ formatF2 avg ++ " characters"

/-! ## `src/tools.py`: `calculate`

`calculate` runs `eval(expression, {"__builtins__": {}}, safe_dict)` and
converts the value with `str`, catching every exception into an
`"Error calculating expression: ..."` string.  The embedding models the
Python expression fragment: numeric and string literals, identifiers, unary
minus, `+ - * /`, calls, the short-circuiting `and` / `or`, and conditional
expressions (`a if c else b`).  The short-circuiting forms matter: an
out-of-whitelist identifier shielded behind a short circuit is never
evaluated, so no `NameError` is raised and `calculate` returns a value
string (`calculate("0 and __import__('os')") = "0"`).  Python forms outside
the fragment (`not`, `lambda`, comprehensions, comparisons, attribute and
subscript access, `**`, `//`, keyword constants, numeric suffixes, string
prefixes and escapes, tuples) are routed by the concrete tokenizer/parser to
the explicit marker result `"calculate: expression outside the modelled
fragment"` rather than being misattributed to a Python outcome.  Python
floats are exact dyadic rationals and are modelled as rationals; operations
whose float result the model does not track exactly (transcendentals,
non-perfect squares, true division rounding, negative powers) yield the
opaque value `PyVal.vopaque` — "some float, value not tracked".  Evaluation
order is Python's left-to-right order with short circuits, so a `NameError`
for an identifier missing from `safe_dict` surfaces whenever the identifier
is actually reached and no earlier error fires. -/

/-- Abstract syntax of the modelled Python expression fragment.
`boolAnd` / `boolOr` are Python's short-circuiting `and` / `or`;
`ifExp body test orelse` is the conditional expression
`body if test else orelse`. -/
inductive PyExpr where
  | intLit (n : ℤ)
  | floatLit (q : ℚ)
  | strLit (s : String)
  | ident (x : String)
  | neg (a : PyExpr)
  | add (l r : PyExpr)
  | sub (l r : PyExpr)
  | mul (l r : PyExpr)
  | div (l r : PyExpr)
  | boolAnd (l r : PyExpr)
  | boolOr (l r : PyExpr)
  | ifExp (body test orelse : PyExpr)
  | call (f : PyExpr) (args : List PyExpr)

/-- Runtime values of the modelled fragment.  `vopaque` is a numeric value
the model does not track exactly (e.g. `sin(1)`); `vfunc` is one of the
whitelisted callables from `safe_dict`. -/
inductive PyVal where
  | vint (n : ℤ)
  | vfloat (q : ℚ)
  | vopaque
  | vstr (s : String)
  | vfunc (name : String)
deriving DecidableEq, Repr

/-- The Python exceptions arising in the modelled fragment; `str(e)` of each
is `errText` below.  (`ZeroDivisionError` messages vary slightly by operand
type in Python; a single text is used.) -/
inductive PyErr where
  | nameError (x : String)
  | typeError (msg : String)
  | zeroDivisionError
  | valueError (msg : String)
deriving DecidableEq, Repr

/-- `str(exception)` for the modelled exceptions. -/
def errText : PyErr → String
  | PyErr.nameError x => "name \x27" ++ x ++ "\x27 is not defined"
  | PyErr.typeError msg => msg
  | PyErr.zeroDivisionError => "division by zero"
  | PyErr.valueError msg => msg

/-- The keys of the `safe_dict` namespace in `calculate` (`src/tools.py`
lines 35-48). -/
def safe_dict : List String :=
  ["abs", "round", "min", "max", "sum", "pow", "sqrt", "sin", "cos", "tan", "pi", "e"]

/-- `math.pi` as the exact dyadic rational of the IEEE double. -/
def math_pi : ℚ := mkRat 884279719003555 281474976710656

/-- `math.e` as the exact dyadic rational of the IEEE double. -/
def math_e : ℚ := mkRat 6121026514868073 2251799813685248

/-- Name lookup during `eval`: `safe_dict` holds the two float constants and
ten callables; with `__builtins__` emptied, any other identifier raises
`NameError`. -/
def lookupName (x : String) : Except PyErr PyVal :=
  if x = "pi" then Except.ok (PyVal.vfloat math_pi)
  else if x = "e" then Except.ok (PyVal.vfloat math_e)
  else if x ∈ safe_dict then Except.ok (PyVal.vfunc x)
  else Except.error (PyErr.nameError x)

/-- Python type name of a value, for `TypeError` texts.  (`vopaque` values
are numeric; "float" is used.) -/
def PyVal.typeName : PyVal → String
  | PyVal.vint _ => "int"
  | PyVal.vfloat _ => "float"
  | PyVal.vopaque => "float"
  | PyVal.vstr _ => "str"
  | PyVal.vfunc _ => "builtin_function_or_method"

/-- The exactly tracked rational of a numeric value, if any. -/
def PyVal.toQ : PyVal → Option ℚ
  | PyVal.vint n => some (n : ℚ)
  | PyVal.vfloat q => some q
  | _ => none

/-- A value of a Python numeric type (including untracked ones). -/
def PyVal.isNumeric : PyVal → Bool
  | PyVal.vint _ => true
  | PyVal.vfloat _ => true
  | PyVal.vopaque => true
  | _ => false

/-- The `TypeError` text for an unsupported binary operation. -/
def binTypeErr (sym : String) (a b : PyVal) : PyErr :=
  PyErr.typeError ("unsupported operand type(s) for " ++ sym ++ ": \x27" ++
    a.typeName ++ "\x27 and \x27" ++ b.typeName ++ "\x27")

/-- Shared shape of the numeric binary operations `+ - *`: int when both
operands are ints, float otherwise; an untracked operand gives an untracked
result; non-numeric operands raise `TypeError`. -/
def binNumeric (opInt : ℤ → ℤ → ℤ) (opQ : ℚ → ℚ → ℚ) (sym : String) :
    PyVal → PyVal → Except PyErr PyVal
  | PyVal.vint a, PyVal.vint b => Except.ok (PyVal.vint (opInt a b))
  | PyVal.vint a, PyVal.vfloat b => Except.ok (PyVal.vfloat (opQ (a : ℚ) b))
  | PyVal.vfloat a, PyVal.vint b => Except.ok (PyVal.vfloat (opQ a (b : ℚ)))
  | PyVal.vfloat a, PyVal.vfloat b => Except.ok (PyVal.vfloat (opQ a b))
  | PyVal.vopaque, b =>
    if b.isNumeric then Except.ok PyVal.vopaque
    else Except.error (binTypeErr sym PyVal.vopaque b)
  | a, PyVal.vopaque =>
    if a.isNumeric then Except.ok PyVal.vopaque
    else Except.error (binTypeErr sym a PyVal.vopaque)
  | a, b => Except.error (binTypeErr sym a b)

/-- Python `+`: string concatenation on two strs, else numeric addition. -/
def pyAdd : PyVal → PyVal → Except PyErr PyVal
  | PyVal.vstr a, PyVal.vstr b => Except.ok (PyVal.vstr (a ++ b))
  | a, b => binNumeric (fun x y => x + y) ratAdd "+" a b

/-- Python binary `-`. -/
def pySub (a b : PyVal) : Except PyErr PyVal :=
  binNumeric (fun x y => x - y) ratSub "-" a b

/-- Python `*`: string repetition with an int, else numeric product. -/
def pyMul : PyVal → PyVal → Except PyErr PyVal
  | PyVal.vstr s, PyVal.vint n => Except.ok (PyVal.vstr (String.join (List.replicate n.toNat s)))
  | PyVal.vint n, PyVal.vstr s => Except.ok (PyVal.vstr (String.join (List.replicate n.toNat s)))
  | a, b => binNumeric (fun x y => x * y) ratMul "*" a b

/-- Python `/` (true division, always float): `ZeroDivisionError` on an
exactly-zero divisor; the exact quotient otherwise (float rounding is not
modelled — every verified claim divides only exactly representable values);
untracked when an operand is untracked. -/
def pyDiv (a b : PyVal) : Except PyErr PyVal :=
  match a.toQ, b.toQ with
  | some qa, some qb =>
    if qb.num = 0 then Except.error PyErr.zeroDivisionError
    else Except.ok (PyVal.vfloat (ratDiv qa qb))
  | _, _ =>
    if a.isNumeric && b.isNumeric then Except.ok PyVal.vopaque
    else Except.error (binTypeErr "/" a b)

/-- Python unary `-`. -/
def pyNeg : PyVal → Except PyErr PyVal
  | PyVal.vint n => Except.ok (PyVal.vint (-n))
  | PyVal.vfloat q => Except.ok (PyVal.vfloat (ratNeg q))
  | PyVal.vopaque => Except.ok PyVal.vopaque
  | v => Except.error (PyErr.typeError ("bad operand type for unary -: \x27" ++ v.typeName ++ "\x27"))

/-- Largest `r ≤ bound` with `r * r ≤ n` (executable integer square root by
downward search; only ever evaluated on small radicands). -/
def natSqrtBelow (n : Nat) : Nat → Nat
  | 0 => 0
  | k + 1 => if (k + 1) * (k + 1) ≤ n then k + 1 else natSqrtBelow n k

/-- Integer square root (floor). -/
def natSqrt (n : Nat) : Nat :=
  natSqrtBelow n n

/-- The exact rational square root, when the radicand is a perfect square of
a rational (callers ensure `0 ≤ q`). -/
def ratSqrt (q : ℚ) : Option ℚ :=
  let n := q.num.toNat
  let d := q.den
  let rn := natSqrt n
  let rd := natSqrt d
  if rn * rn = n ∧ rd * rd = d then some (mkRat (rn : ℤ) rd) else none

/-- The tracked rational of every argument, when all are tracked. -/
def allTrackedQ : List PyVal → Option (List ℚ)
  | [] => some []
  | v :: vs =>
    match v.toQ, allTrackedQ vs with
    | some q, some qs => some (q :: qs)
    | _, _ => none

/-- First argument attaining the extremum, as Python `min`/`max` return the
first of equal arguments (replacement only on strict improvement). -/
def selectExtremal (isMin : Bool) : PyVal → List PyVal → PyVal
  | best, [] => best
  | best, w :: rest =>
    let qb := (PyVal.toQ best).getD 0
    let qw := (PyVal.toQ w).getD 0
    let better := if isMin then Rat.blt qw qb else Rat.blt qb qw
    selectExtremal isMin (if better then w else best) rest

/-- As `selectExtremal`, for string arguments under lexicographic order. -/
def selectExtremalStr (isMin : Bool) : PyVal → List PyVal → PyVal
  | best, [] => best
  | best, w :: rest =>
    let sb := match best with | PyVal.vstr s => s | _ => ""
    let sw := match w with | PyVal.vstr s => s | _ => ""
    let better := if isMin then sw < sb else sb < sw
    selectExtremalStr isMin (if better then w else best) rest

/-- Python `min`/`max` on positional arguments: at least two arguments of a
comparable type; a single non-iterable argument raises `TypeError`. -/
def pyMinMax (isMin : Bool) : List PyVal → Except PyErr PyVal
  | [] => Except.error (PyErr.typeError "expected at least 1 argument, got 0")
  | [v] => Except.error (PyErr.typeError ("\x27" ++ v.typeName ++ "\x27 object is not iterable"))
  | v :: rest =>
    if (v :: rest).all PyVal.isNumeric then
      match allTrackedQ (v :: rest) with
      | some _ => Except.ok (selectExtremal isMin v rest)
      | none => Except.ok PyVal.vopaque
    else if (v :: rest).all (fun w => match w with | PyVal.vstr _ => true | _ => false) then
      Except.ok (selectExtremalStr isMin v rest)
    else
      Except.error (PyErr.typeError "ordering is not supported between the operand types")

/-- Application of a whitelisted callable from `safe_dict`.  `sum` always
raises `TypeError` because no iterable value exists in the modelled fragment;
results the model does not track exactly are `vopaque`. -/
def applyFn : String → List PyVal → Except PyErr PyVal
  | "sqrt", [PyVal.vint n] =>
    if n < 0 then Except.error (PyErr.valueError "math domain error")
    else
      match ratSqrt (n : ℚ) with
      | some r => Except.ok (PyVal.vfloat r)
      | none => Except.ok PyVal.vopaque
  | "sqrt", [PyVal.vfloat q] =>
    if Rat.blt q 0 then Except.error (PyErr.valueError "math domain error")
    else
      match ratSqrt q with
      | some r => Except.ok (PyVal.vfloat r)
      | none => Except.ok PyVal.vopaque
  | "sqrt", [PyVal.vopaque] => Except.ok PyVal.vopaque
  | "sqrt", [v] => Except.error (PyErr.typeError ("must be real number, not " ++ v.typeName))
  | "sin", [v] =>
    if v.isNumeric then Except.ok PyVal.vopaque
    else Except.error (PyErr.typeError ("must be real number, not " ++ v.typeName))
  | "cos", [v] =>
    if v.isNumeric then Except.ok PyVal.vopaque
    else Except.error (PyErr.typeError ("must be real number, not " ++ v.typeName))
  | "tan", [v] =>
    if v.isNumeric then Except.ok PyVal.vopaque
    else Except.error (PyErr.typeError ("must be real number, not " ++ v.typeName))
  | "abs", [PyVal.vint n] => Except.ok (PyVal.vint (n.natAbs : ℤ))
  | "abs", [PyVal.vfloat q] => Except.ok (PyVal.vfloat (if Rat.blt q 0 then ratNeg q else q))
  | "abs", [PyVal.vopaque] => Except.ok PyVal.vopaque
  | "abs", [v] => Except.error (PyErr.typeError ("bad operand type for abs(): \x27" ++ v.typeName ++ "\x27"))
  | "round", [PyVal.vint n] => Except.ok (PyVal.vint n)
  | "round", [PyVal.vfloat q] => Except.ok (PyVal.vint (roundHalfEven q))
  | "round", [PyVal.vopaque] => Except.ok PyVal.vopaque
  | "round", [v] =>
    Except.error (PyErr.typeError ("type " ++ v.typeName ++ " does not define __round__ method"))
  | "round", [v, nd] =>
    if v.isNumeric && nd.isNumeric then Except.ok PyVal.vopaque
    else Except.error (PyErr.typeError "round second argument must be an int")
  | "pow", [PyVal.vint x, PyVal.vint y] =>
    if 0 ≤ y then Except.ok (PyVal.vint (x ^ y.toNat))
    else if x = 0 then Except.error PyErr.zeroDivisionError
    else Except.ok PyVal.vopaque
  | "pow", [a, b] =>
    if a.isNumeric && b.isNumeric then Except.ok PyVal.vopaque
    else Except.error (binTypeErr "** or pow()" a b)
  | "min", args => pyMinMax true args
  | "max", args => pyMinMax false args
  | "sum", [v] => Except.error (PyErr.typeError ("\x27" ++ v.typeName ++ "\x27 object is not iterable"))
  | "sum", [v, _] => Except.error (PyErr.typeError ("\x27" ++ v.typeName ++ "\x27 object is not iterable"))
  | name, args =>
    Except.error (PyErr.typeError (name ++ "() does not accept " ++ toString args.length ++ " arguments"))

/-- Python truthiness (`bool(v)`) of a modelled value: zero numbers and the
empty string are falsy; the truthiness of an untracked numeric value is
itself unknown (`none`). -/
def pyTruthy : PyVal → Option Bool
  | PyVal.vint n => some (n != 0)
  | PyVal.vfloat q => some (q.num != 0)
  | PyVal.vopaque => none
  | PyVal.vstr s => some (s != "")
  | PyVal.vfunc _ => some true

mutual

/-- `eval` on the modelled fragment, in Python's left-to-right evaluation
order with short-circuiting `and` / `or` and lazy conditional branches,
with the `safe_dict` namespace and empty builtins.  When a short-circuit
guard is an untracked numeric value its truthiness is unknown; the result is
then the untracked value, without deciding whether the guarded operand runs
(an unmodelled corner no verified statement quantifies over). -/
def evalExpr : PyExpr → Except PyErr PyVal
  | PyExpr.intLit n => Except.ok (PyVal.vint n)
  | PyExpr.floatLit q => Except.ok (PyVal.vfloat q)
  | PyExpr.strLit s => Except.ok (PyVal.vstr s)
  | PyExpr.ident x => lookupName x
  | PyExpr.neg a =>
    match evalExpr a with
    | Except.error err => Except.error err
    | Except.ok v => pyNeg v
  | PyExpr.add l r =>
    match evalExpr l with
    | Except.error err => Except.error err
    | Except.ok a =>
      match evalExpr r with
      | Except.error err => Except.error err
      | Except.ok b => pyAdd a b
  | PyExpr.sub l r =>
    match evalExpr l with
    | Except.error err => Except.error err
    | Except.ok a =>
      match evalExpr r with
      | Except.error err => Except.error err
      | Except.ok b => pySub a b
  | PyExpr.mul l r =>
    match evalExpr l with
    | Except.error err => Except.error err
    | Except.ok a =>
      match evalExpr r with
      | Except.error err => Except.error err
      | Except.ok b => pyMul a b
  | PyExpr.div l r =>
    match evalExpr l with
    | Except.error err => Except.error err
    | Except.ok a =>
      match evalExpr r with
      | Except.error err => Except.error err
      | Except.ok b => pyDiv a b
  | PyExpr.boolAnd l r =>
    match evalExpr l with
    | Except.error err => Except.error err
    | Except.ok v =>
      match pyTruthy v with
      | some false => Except.ok v
      | some true => evalExpr r
      | none => Except.ok PyVal.vopaque
  | PyExpr.boolOr l r =>
    match evalExpr l with
    | Except.error err => Except.error err
    | Except.ok v =>
      match pyTruthy v with
      | some true => Except.ok v
      | some false => evalExpr r
      | none => Except.ok PyVal.vopaque
  | PyExpr.ifExp body test orelse =>
    match evalExpr test with
    | Except.error err => Except.error err
    | Except.ok v =>
      match pyTruthy v with
      | some true => evalExpr body
      | some false => evalExpr orelse
      | none => Except.ok PyVal.vopaque
  | PyExpr.call f args =>
    match evalExpr f with
    | Except.error err => Except.error err
    | Except.ok fv =>
      match evalArgs args with
      | Except.error err => Except.error err
      | Except.ok avs =>
        match fv with
        | PyVal.vfunc name => applyFn name avs
        | v => Except.error (PyErr.typeError ("\x27" ++ v.typeName ++ "\x27 object is not callable"))

/-- Left-to-right evaluation of call arguments. -/
def evalArgs : List PyExpr → Except PyErr (List PyVal)
  | [] => Except.ok []
  | a :: rest =>
    match evalExpr a with
    | Except.error err => Except.error err
    | Except.ok v =>
      match evalArgs rest with
      | Except.error err => Except.error err
      | Except.ok vs => Except.ok (v :: vs)

end

mutual

/-- Identifiers occurring in an expression. -/
def identsOf : PyExpr → List String
  | PyExpr.intLit _ => []
  | PyExpr.floatLit _ => []
  | PyExpr.strLit _ => []
  | PyExpr.ident x => [x]
  | PyExpr.neg a => identsOf a
  | PyExpr.add l r => identsOf l ++ identsOf r
  | PyExpr.sub l r => identsOf l ++ identsOf r
  | PyExpr.mul l r => identsOf l ++ identsOf r
  | PyExpr.div l r => identsOf l ++ identsOf r
  | PyExpr.boolAnd l r => identsOf l ++ identsOf r
  | PyExpr.boolOr l r => identsOf l ++ identsOf r
  | PyExpr.ifExp body test orelse => identsOf body ++ identsOf test ++ identsOf orelse
  | PyExpr.call f args => identsOf f ++ identsOfList args

/-- Identifiers occurring in an argument list. -/
def identsOfList : List PyExpr → List String
  | [] => []
  | a :: rest => identsOf a ++ identsOfList rest

end

/-- The expression uses at least one identifier outside the `safe_dict`
whitelist. -/
def usesUnknownName (a : PyExpr) : Bool :=
  (identsOf a).any (fun x => ! safe_dict.contains x)

mutual

/-- No short-circuiting form (`and`, `or`, conditional expression) occurs in
the expression — so evaluation reaches every subexpression unless an error
aborts it first. -/
def shortCircuitFree : PyExpr → Bool
  | PyExpr.intLit _ => true
  | PyExpr.floatLit _ => true
  | PyExpr.strLit _ => true
  | PyExpr.ident _ => true
  | PyExpr.neg a => shortCircuitFree a
  | PyExpr.add l r => shortCircuitFree l && shortCircuitFree r
  | PyExpr.sub l r => shortCircuitFree l && shortCircuitFree r
  | PyExpr.mul l r => shortCircuitFree l && shortCircuitFree r
  | PyExpr.div l r => shortCircuitFree l && shortCircuitFree r
  | PyExpr.boolAnd _ _ => false
  | PyExpr.boolOr _ _ => false
  | PyExpr.ifExp _ _ _ => false
  | PyExpr.call f args => shortCircuitFree f && shortCircuitFreeList args

/-- `shortCircuitFree` over an argument list. -/
def shortCircuitFreeList : List PyExpr → Bool
  | [] => true
  | a :: rest => shortCircuitFree a && shortCircuitFreeList rest

end

/-- The least `k ≤ 60` with `den ∣ 10 ^ k`, when one exists: the fractional
value has a finite decimal expansion of `k` digits. -/
def decExponent (den : Nat) : Option Nat :=
  (List.range 61).find? (fun k => 10 ^ k % den = 0)

/-- Drop trailing `'0'` characters. -/
def stripTrailingZeros (l : List Char) : List Char :=
  (l.reverse.dropWhile (fun c => c = '0')).reverse

/-- Left-pad with `'0'` to length `k`. -/
def padLeftZeros (k : Nat) (l : List Char) : List Char :=
  List.replicate (k - l.length) '0' ++ l

/-- `str(value)` for the modelled values.  Python prints the shortest
decimal that round-trips through the float.  Floats with integral value
print as `"N.0"` (Python does this below 1e16; the verified claims stay in
that range).  A non-integral float whose exact value has a short finite
decimal expansion prints as that expansion — for such values the exact
expansion is the shortest round-tripping decimal, because neighbouring
floats are far closer than neighbouring decimals of that length.  Rationals
with no finite decimal expansion cannot be float values reached by the
exactly-tracked operations; they render as an explicit marker no verified
statement relies on, as does the untracked `vopaque`. -/
def strOfVal : PyVal → String
  | PyVal.vint n => toString n
  | PyVal.vfloat q =>
    if q.den = 1 then toString q.num ++ ".0"
    else
      match decExponent q.den with
      | some k =>
        let sign := if q.num < 0 then "-" else ""
        let digits := q.num.natAbs * (10 ^ k / q.den)
        let ip := digits / 10 ^ k
        let frac := stripTrailingZeros (padLeftZeros k (Nat.toDigits 10 (digits % 10 ^ k)))
        sign ++ toString ip ++ "." ++ String.mk frac
      | none => "untracked float " ++ toString q.num ++ "/" ++ toString q.den
  | PyVal.vopaque => "untracked numeric value"
  | PyVal.vstr s => s
  | PyVal.vfunc n => "<built-in function " ++ n ++ ">"

/-- `calculate` on a parsed expression: `str` of the value on success, the
caught exception's text behind the fixed error marker otherwise
(`src/tools.py` lines 50-56). -/
def calcAst (a : PyExpr) : String :=
  match evalExpr a with
  | Except.ok v => strOfVal v
  | Except.error err => "Error calculating expression: " ++ errText err

/-! Concrete syntax: a tokenizer and recursive-descent parser for the
modelled fragment, standing in for CPython's parser inside `eval`.  Fuel
bounds recursion; `parse` supplies enough fuel for any input it accepts. -/

/-- Tokens of the modelled fragment. -/
inductive Tok where
  | tInt (n : ℕ)
  | tFloat (q : ℚ)
  | tStr (s : String)
  | tIdent (x : String)
  | tAnd
  | tOr
  | tIf
  | tElse
  | tPlus
  | tMinus
  | tStar
  | tSlash
  | tLParen
  | tRParen
  | tComma
deriving DecidableEq, Repr

/-- First character of a Python identifier. -/
def isIdentStart (c : Char) : Bool := c.isAlpha || c = '_'

/-- Subsequent character of a Python identifier. -/
def isIdentChar (c : Char) : Bool := c.isAlphanum || c = '_'

/-- Decimal value of a digit run. -/
def natOfDigits (ds : List Char) : ℕ :=
  ds.foldl (fun a c => 10 * a + (c.toNat - 48)) 0

/-- A Python string quote character. -/
def isQuote (c : Char) : Bool := c = '\x27' || c = '"'

/-- The fixed message for Python forms the fragment does not model;
`calculate` maps it to an explicit outside-the-fragment result instead of
attributing any Python behavior to such inputs. -/
def unmodelledMsg : String := "unmodelled Python form"

/-- Python keywords and keyword constants that head forms outside the
modelled fragment. -/
def unmodelledKeywords : List String :=
  ["not", "lambda", "for", "in", "is", "None", "True", "False", "await", "yield"]

/-- Tokenizer; every recursive call drops at least one character, so fuel
`length + 1` always suffices.  Numeric suffixes (`1e3`, `0x10`, `10_000`,
`2j`), `**`, `//`, string prefixes (`f"..."`), backslash escapes, the other
operator characters, and the keywords of `unmodelledKeywords` are routed to
`unmodelledMsg`; `and`, `or`, `if`, `else` become keyword tokens. -/
def tokenize : Nat → List Char → Except String (List Tok)
  | 0, _ => Except.error "tokenizer out of fuel"
  | _, [] => Except.ok []
  | fuel + 1, c :: cs =>
    if c.isWhitespace then tokenize fuel cs
    else if c.isDigit then
      let ds := (c :: cs).takeWhile Char.isDigit
      let rest := (c :: cs).dropWhile Char.isDigit
      match rest with
      | '.' :: rest2 =>
        let fs := rest2.takeWhile Char.isDigit
        let rest3 := rest2.dropWhile Char.isDigit
        if isIdentStart (rest3.headD ' ') then Except.error unmodelledMsg
        else
          match tokenize fuel rest3 with
          | Except.error msg => Except.error msg
          | Except.ok ts =>
            Except.ok (Tok.tFloat (mkRat ((natOfDigits ds * 10 ^ fs.length + natOfDigits fs : ℕ) : ℤ) (10 ^ fs.length)) :: ts)
      | _ =>
        if isIdentStart (rest.headD ' ') then Except.error unmodelledMsg
        else
          match tokenize fuel rest with
          | Except.error msg => Except.error msg
          | Except.ok ts => Except.ok (Tok.tInt (natOfDigits ds) :: ts)
    else if isIdentStart c then
      let xs := (c :: cs).takeWhile isIdentChar
      let rest := (c :: cs).dropWhile isIdentChar
      let word := String.mk xs
      if word ∈ unmodelledKeywords then Except.error unmodelledMsg
      else if isQuote (rest.headD ' ') then Except.error unmodelledMsg
      else
        match tokenize fuel rest with
        | Except.error msg => Except.error msg
        | Except.ok ts =>
          if word = "and" then Except.ok (Tok.tAnd :: ts)
          else if word = "or" then Except.ok (Tok.tOr :: ts)
          else if word = "if" then Except.ok (Tok.tIf :: ts)
          else if word = "else" then Except.ok (Tok.tElse :: ts)
          else Except.ok (Tok.tIdent word :: ts)
    else if isQuote c then
      let body := cs.takeWhile (fun d => d ≠ c)
      if body.any (fun d => d = '\\') then Except.error unmodelledMsg
      else
        match cs.dropWhile (fun d => d ≠ c) with
        | _ :: rest2 =>
          match tokenize fuel rest2 with
          | Except.error msg => Except.error msg
          | Except.ok ts => Except.ok (Tok.tStr (String.mk body) :: ts)
        | [] => Except.error "unterminated string literal"
    else if c = '*' then
      match cs with
      | '*' :: _ => Except.error unmodelledMsg
      | _ =>
        match tokenize fuel cs with
        | Except.error msg => Except.error msg
        | Except.ok ts => Except.ok (Tok.tStar :: ts)
    else if c = '/' then
      match cs with
      | '/' :: _ => Except.error unmodelledMsg
      | _ =>
        match tokenize fuel cs with
        | Except.error msg => Except.error msg
        | Except.ok ts => Except.ok (Tok.tSlash :: ts)
    else
      match
        (if c = '+' then some Tok.tPlus
         else if c = '-' then some Tok.tMinus
         else if c = '(' then some Tok.tLParen
         else if c = ')' then some Tok.tRParen
         else if c = ',' then some Tok.tComma
         else none) with
      | some t =>
        match tokenize fuel cs with
        | Except.error msg => Except.error msg
        | Except.ok ts => Except.ok (t :: ts)
      | none => Except.error unmodelledMsg

mutual

/-- Top expression level, Python's conditional expression:
`or_expr ("if" or_expr "else" ternary)?` (at runtime the condition is
evaluated first, then exactly one branch). -/
def parseTernary : Nat → List Tok → Except String (PyExpr × List Tok)
  | 0, _ => Except.error "parser out of fuel"
  | fuel + 1, ts =>
    match parseOr fuel ts with
    | Except.error msg => Except.error msg
    | Except.ok (b, Tok.tIf :: ts1) =>
      match parseOr fuel ts1 with
      | Except.error msg => Except.error msg
      | Except.ok (t, Tok.tElse :: ts2) =>
        match parseTernary fuel ts2 with
        | Except.error msg => Except.error msg
        | Except.ok (o, ts3) => Except.ok (PyExpr.ifExp b t o, ts3)
      | Except.ok _ => Except.error "invalid syntax"
    | Except.ok (b, ts1) => Except.ok (b, ts1)

/-- `or` level: `and_expr ("or" and_expr)*`. -/
def parseOr : Nat → List Tok → Except String (PyExpr × List Tok)
  | 0, _ => Except.error "parser out of fuel"
  | fuel + 1, ts =>
    match parseAnd fuel ts with
    | Except.error msg => Except.error msg
    | Except.ok (l, ts1) => parseOrRest fuel l ts1

/-- Remaining `or` chain, left associative. -/
def parseOrRest : Nat → PyExpr → List Tok → Except String (PyExpr × List Tok)
  | 0, _, _ => Except.error "parser out of fuel"
  | fuel + 1, l, Tok.tOr :: ts1 =>
    match parseAnd fuel ts1 with
    | Except.error msg => Except.error msg
    | Except.ok (r, ts2) => parseOrRest fuel (PyExpr.boolOr l r) ts2
  | _, l, ts => Except.ok (l, ts)

/-- `and` level: `arith_expr ("and" arith_expr)*` (`not` and comparisons
are outside the fragment and never reach the parser). -/
def parseAnd : Nat → List Tok → Except String (PyExpr × List Tok)
  | 0, _ => Except.error "parser out of fuel"
  | fuel + 1, ts =>
    match parseExpr fuel ts with
    | Except.error msg => Except.error msg
    | Except.ok (l, ts1) => parseAndRest fuel l ts1

/-- Remaining `and` chain, left associative. -/
def parseAndRest : Nat → PyExpr → List Tok → Except String (PyExpr × List Tok)
  | 0, _, _ => Except.error "parser out of fuel"
  | fuel + 1, l, Tok.tAnd :: ts1 =>
    match parseExpr fuel ts1 with
    | Except.error msg => Except.error msg
    | Except.ok (r, ts2) => parseAndRest fuel (PyExpr.boolAnd l r) ts2
  | _, l, ts => Except.ok (l, ts)

/-- Additive level: `term (("+" | "-") term)*`. -/
def parseExpr : Nat → List Tok → Except String (PyExpr × List Tok)
  | 0, _ => Except.error "parser out of fuel"
  | fuel + 1, ts =>
    match parseTerm fuel ts with
    | Except.error msg => Except.error msg
    | Except.ok (l, ts1) => parseAddRest fuel l ts1

/-- Remaining `+`/`-` chain, left associative. -/
def parseAddRest : Nat → PyExpr → List Tok → Except String (PyExpr × List Tok)
  | 0, _, _ => Except.error "parser out of fuel"
  | fuel + 1, l, Tok.tPlus :: ts1 =>
    match parseTerm fuel ts1 with
    | Except.error msg => Except.error msg
    | Except.ok (r, ts2) => parseAddRest fuel (PyExpr.add l r) ts2
  | fuel + 1, l, Tok.tMinus :: ts1 =>
    match parseTerm fuel ts1 with
    | Except.error msg => Except.error msg
    | Except.ok (r, ts2) => parseAddRest fuel (PyExpr.sub l r) ts2
  | _, l, ts => Except.ok (l, ts)

/-- Multiplicative level: `factor (("*" | "/") factor)*`. -/
def parseTerm : Nat → List Tok → Except String (PyExpr × List Tok)
  | 0, _ => Except.error "parser out of fuel"
  | fuel + 1, ts =>
    match parseFactor fuel ts with
    | Except.error msg => Except.error msg
    | Except.ok (l, ts1) => parseMulRest fuel l ts1

/-- Remaining `*`/`/` chain, left associative. -/
def parseMulRest : Nat → PyExpr → List Tok → Except String (PyExpr × List Tok)
  | 0, _, _ => Except.error "parser out of fuel"
  | fuel + 1, l, Tok.tStar :: ts1 =>
    match parseFactor fuel ts1 with
    | Except.error msg => Except.error msg
    | Except.ok (r, ts2) => parseMulRest fuel (PyExpr.mul l r) ts2
  | fuel + 1, l, Tok.tSlash :: ts1 =>
    match parseFactor fuel ts1 with
    | Except.error msg => Except.error msg
    | Except.ok (r, ts2) => parseMulRest fuel (PyExpr.div l r) ts2
  | _, l, ts => Except.ok (l, ts)

/-- Unary minus chain over a postfix-trailed atom. -/
def parseFactor : Nat → List Tok → Except String (PyExpr × List Tok)
  | 0, _ => Except.error "parser out of fuel"
  | fuel + 1, Tok.tMinus :: ts1 =>
    match parseFactor fuel ts1 with
    | Except.error msg => Except.error msg
    | Except.ok (a, ts2) => Except.ok (PyExpr.neg a, ts2)
  | fuel + 1, ts =>
    match parseAtom fuel ts with
    | Except.error msg => Except.error msg
    | Except.ok (a, ts1) => parseTrailers fuel a ts1

/-- Atoms: literals, identifiers, parenthesised expressions. -/
def parseAtom : Nat → List Tok → Except String (PyExpr × List Tok)
  | 0, _ => Except.error "parser out of fuel"
  | _ + 1, Tok.tInt n :: ts => Except.ok (PyExpr.intLit (n : ℤ), ts)
  | _ + 1, Tok.tFloat q :: ts => Except.ok (PyExpr.floatLit q, ts)
  | _ + 1, Tok.tStr s :: ts => Except.ok (PyExpr.strLit s, ts)
  | _ + 1, Tok.tIdent x :: ts => Except.ok (PyExpr.ident x, ts)
  | fuel + 1, Tok.tLParen :: ts =>
    match parseTernary fuel ts with
    | Except.error msg => Except.error msg
    | Except.ok (a, Tok.tRParen :: ts1) => Except.ok (a, ts1)
    | Except.ok (_, Tok.tComma :: _) => Except.error unmodelledMsg
    | Except.ok _ => Except.error "expected closing parenthesis"
  | _, _ => Except.error "invalid syntax"

/-- Call trailers `f(...)`, possibly chained. -/
def parseTrailers : Nat → PyExpr → List Tok → Except String (PyExpr × List Tok)
  | 0, _, _ => Except.error "parser out of fuel"
  | fuel + 1, a, Tok.tLParen :: Tok.tRParen :: ts =>
    parseTrailers fuel (PyExpr.call a []) ts
  | fuel + 1, a, Tok.tLParen :: ts =>
    match parseArgs fuel ts with
    | Except.error msg => Except.error msg
    | Except.ok (args, Tok.tRParen :: ts1) => parseTrailers fuel (PyExpr.call a args) ts1
    | Except.ok _ => Except.error "expected closing parenthesis"
  | _, a, ts => Except.ok (a, ts)

/-- Comma-separated non-empty argument list (starred arguments are outside
the fragment). -/
def parseArgs : Nat → List Tok → Except String (List PyExpr × List Tok)
  | 0, _ => Except.error "parser out of fuel"
  | _ + 1, Tok.tStar :: _ => Except.error unmodelledMsg
  | fuel + 1, ts =>
    match parseTernary fuel ts with
    | Except.error msg => Except.error msg
    | Except.ok (a, Tok.tComma :: ts1) =>
      match parseArgs fuel ts1 with
      | Except.error msg => Except.error msg
      | Except.ok (args, ts2) => Except.ok (a :: args, ts2)
    | Except.ok (a, ts1) => Except.ok ([a], ts1)

end

/-- Parse a whole expression string (a top-level comma would form a tuple,
which is outside the fragment). -/
def parse (expression : String) : Except String PyExpr :=
  match tokenize (expression.length + 1) expression.toList with
  | Except.error msg => Except.error msg
  | Except.ok toks =>
    match parseTernary (16 * (toks.length + 1)) toks with
    | Except.error msg => Except.error msg
    | Except.ok (a, []) => Except.ok a
    | Except.ok (_, Tok.tComma :: _) => Except.error unmodelledMsg
    | Except.ok _ => Except.error "invalid syntax"

/-- `calculate` (`src/tools.py` lines 24-56): evaluate the expression in the
restricted namespace; any exception — including the parse-time
`SyntaxError` — is caught and rendered behind the fixed error marker.
Inputs that use Python forms outside the modelled fragment produce the
explicit marker result below, which asserts nothing about the program's
behavior on them. -/
def calculate (expression : String) : String :=
  match parse expression with
  | Except.ok a => calcAst a
  | Except.error msg =>
    if msg = unmodelledMsg then "calculate: expression outside the modelled fragment"
    else "Error calculating expression: invalid syntax (<string>, line 1)"

/-! ## `src/agent.py`: the compiled LangGraph loop -/

/-- The external language model with bound tools
(`self.llm_with_tools.invoke`): from the full history it produces the reply
content and the list of requested tool calls. -/
def Oracle : Type :=
  List Message → String × List ToolCall

/-- Dispatch a tool call by name, as `ToolNode` does against the list from
`get_available_tools()`. -/
def runTool (env : Env) (name arg : String) : String :=
  if name = "get_current_time" then env.now
  else if name = "calculate" then calculate arg
  else if name = "search_knowledge_base" then search_knowledge_base arg
  else if name = "text_analysis" then text_analysis arg
  else name ++ " is not a valid tool, try one of [get_current_time, calculate, search_knowledge_base, text_analysis]."

/-- `ToolNode` output for one requested call: a `ToolMessage` whose content is
the tool's string result and whose `tool_call_id` is the request's id. -/
def execToolCall (env : Env) (c : ToolCall) : Message :=
  Message.tool (runTool env c.name c.arg) c.id

/-- `Agent._call_model`: invoke the model on the full history and append its
reply (the `add_messages` reducer appends the returned message). -/
def call_model (oracle : Oracle) (msgs : List Message) : List Message :=
  msgs ++ [Message.ai (oracle msgs).1 (oracle msgs).2]

/-- `Agent._should_continue` (`src/agent.py` lines 91-109): look at the last
message; only an `AIMessage` has a `tool_calls` attribute, and the branch is
"continue" exactly when that list is non-empty. -/
def should_continue (msgs : List Message) : String :=
  match msgs.getLast? with
  | some (Message.ai _ tc) => if tc.isEmpty then "end" else "continue"
  | _ => "end"

/-- The `tools` node (`ToolNode(self.tools)`): execute every tool call of the
last message, appending one `ToolMessage` per call in request order.  (In
this graph the node is only ever entered when the last message is an
`AIMessage` with tool calls; on any other state `ToolNode` raises, which is
unreachable here and modelled as appending nothing.) -/
def tool_node (env : Env) (msgs : List Message) : List Message :=
  match msgs.getLast? with
  | some (Message.ai _ tc) => msgs ++ tc.map (execToolCall env)
  | _ => msgs

/-- The compiled graph `workflow.compile()` run by `self.graph.invoke`:
entry point `agent`; after each model reply, `_should_continue` routes to the
`tools` node (which loops back to `agent`) or to `END`.  `fuel` bounds the
modelled recursion: `none` means the loop has not terminated within `fuel`
rounds — the repository's code itself imposes no cap. -/
def runGraph (env : Env) (oracle : Oracle) :
    Nat → List Message → Option (List Message)
  | 0, _ => none
  | fuel + 1, msgs =>
    let msgs1 := call_model oracle msgs
    if should_continue msgs1 = "continue" then
      runGraph env oracle fuel (tool_node env msgs1)
    else
      some msgs1

/-- `Agent.run` (`src/agent.py` lines 111-132).  Python's
`messages = conversation_history or []` takes the caller's own list object
when it is truthy (non-`None` and non-empty) and a fresh list otherwise, and
`messages.append(HumanMessage(...))` then mutates that object in place.  The
second component of the result models the contents of the caller-supplied
list after the call returns; the first component is the final state's message
list (`none` while the graph has not terminated within `fuel` rounds). -/
def Agent.run (env : Env) (oracle : Oracle)
    (fuel : Nat) (user_input : String)
    (conversation_history : Option (List Message)) :
    Option (List Message) × List Message :=
  let provided := conversation_history.getD []
  let messages := provided ++ [Message.human user_input]
  let callerAfter := if provided.isEmpty then provided else messages
  (runGraph env oracle fuel messages, callerAfter)

/-! ## `src/config.py` and `src/main.py` -/

/-- `Config` (`src/config.py`): the environment-sourced settings.  `none` for
`OPENAI_API_KEY` models an unset variable (`os.getenv` returning `None`). -/
structure Config where
  OPENAI_API_KEY : Option String
  MODEL_NAME : String
  TEMPERATURE : ℚ
  MAX_ITERATIONS : ℤ
  VERBOSE : Bool

/-- `Config.validate`: fail fast when the key is absent (Python falsy: `None`
or the empty string). -/
def Config.validate (cfg : Config) : Except String Bool :=
  match cfg.OPENAI_API_KEY with
  | none =>
    Except.error "OPENAI_API_KEY not found. Please set it in your .env file or environment variables."
  | some k =>
    if k = "" then
      Except.error "OPENAI_API_KEY not found. Please set it in your .env file or environment variables."
    else
      Except.ok true

/-- One user turn of `main()` (`src/main.py` lines 21-24 and the REPL body):
configuration is validated at import, then the agent is constructed from
`Config.MODEL_NAME` and `Config.TEMPERATURE` only, and `agent.run` is
invoked.  The model service is the oracle family `llm`, indexed by the model
name and temperature the agent was built with. -/
def mainStep (llm : String → ℚ → Oracle)
    (env : Env) (cfg : Config) (fuel : Nat) (user_input : String)
    (history : Option (List Message)) :
    Except String (Option (List Message) × List Message) :=
  match cfg.validate with
  | Except.error msg => Except.error msg
  | Except.ok _ =>
    Except.ok (Agent.run env (llm cfg.MODEL_NAME cfg.TEMPERATURE)
      fuel user_input history)

/-! ## `receipt.py`: the Tabscanner result poller -/

/-- One JSON payload returned by the Tabscanner result endpoint: the fields
the poller inspects (`payload.get("status")`, `payload.get("success")`), plus
the rest of the body kept opaque. -/
structure Payload where
  status : Option String
  success : Option Bool
  body : String
deriving DecidableEq, Repr

/-- The two distinct error conditions `tabscanner_poll_result` raises:
`RuntimeError("Tabscanner result failed: ...")` on a failed status, and
`TimeoutError(...)` past the caller-supplied deadline. -/
inductive PollErr where
  | runtimeFailed (p : Payload)
  | timedOut (p : Payload)
deriving DecidableEq, Repr

/-- `tabscanner_poll_result` (`receipt.py` lines 86-109).  `responses k` is
the payload of the k-th poll.  Elapsed time at the k-th check is modelled as
`k * poll_every_s` (the deadline clock starts after the initial wait; HTTP
latency is idealised to zero).  The checks follow source order: done, then
failed, then deadline; `fuel` only bounds the modelled recursion
(`none` = still polling after `fuel` rounds). -/
def tabscanner_poll_result (responses : Nat → Payload)
    (poll_every_s timeout_s : ℚ) : Nat → Nat → Option (Except PollErr Payload)
  | 0, _ => none
  | fuel + 1, k =>
    let payload := responses k
    if payload.status = some "done" ∧ payload.success.getD true = true then
      some (Except.ok payload)
    else if payload.status = some "failed" ∨ payload.success = some false then
      some (Except.error (PollErr.runtimeFailed payload))
    else if Rat.blt timeout_s (ratMul (k : ℚ) poll_every_s) then
      some (Except.error (PollErr.timedOut payload))
    else
      tabscanner_poll_result responses poll_every_s timeout_s fuel (k + 1)

end Liminal

namespace Liminal

/-! ## Helper lemmas about the loop -/

/-- One step of the compiled graph from a positive fuel budget. -/
theorem runGraph_succ (env : Env) (oracle : Oracle) (fuel : Nat) (msgs : List Message) :
    runGraph env oracle (fuel + 1) msgs =
      if should_continue (call_model oracle msgs) = "continue" then
        runGraph env oracle fuel (tool_node env (call_model oracle msgs))
      else some (call_model oracle msgs) := rfl

/-- The branch check after a freshly appended model reply. -/
theorem should_continue_snoc (msgs : List Message) (c : String) (tc : List ToolCall) :
    should_continue (msgs ++ [Message.ai c tc]) = if tc.isEmpty then "end" else "continue" := by
  simp [should_continue, List.getLast?_concat]

/-- `ToolNode` on a state whose last message is a model reply. -/
theorem tool_node_snoc (env : Env) (msgs : List Message) (c : String) (tc : List ToolCall) :
    tool_node env (msgs ++ [Message.ai c tc])
      = (msgs ++ [Message.ai c tc]) ++ tc.map (execToolCall env) := by
  simp [tool_node, List.getLast?_concat]

/-- The model node appends exactly the oracle's reply. -/
theorem call_model_eq (oracle : Oracle) (msgs : List Message) (c : String)
    (tc : List ToolCall) (hor : oracle msgs = (c, tc)) :
    call_model oracle msgs = msgs ++ [Message.ai c tc] := by
  simp [call_model, hor]

/-! ## Concrete instances used by witnesses and counterexamples -/

/-- A fixed clock value. -/
def env1 : Env := ⟨"2025-01-01 12:00:00"⟩

/-- A model that always answers directly, with no tool calls. -/
def oracleFinal : Oracle := fun _ => ("ok", [])

/-- A concrete requested tool call. -/
def tc1 : ToolCall := ⟨"calculate", "2 + 2", "call-1"⟩

/-- A model that requests the same single tool call on every reply. -/
def oracleToolOnce : Oracle := fun _ => ("using tool", [tc1])

/-! ## Claims about the conversation loop -/

/-- C1: for every model reply declaring N tool calls (N ≥ 1), the loop
appends exactly N tool-result messages — one per requested call, in request
order (the i-th appended `ToolMessage` carries the i-th call's result and
id) — and only then invokes the model again on the grown history. -/
theorem claim1_tool_results_per_reply (env : Env) (oracle : Oracle)
    (fuel : Nat) (msgs : List Message) (c : String) (tc : List ToolCall)
    (hor : oracle msgs = (c, tc)) (hne : tc ≠ []) :
    runGraph env oracle (fuel + 1) msgs
        = runGraph env oracle fuel ((msgs ++ [Message.ai c tc]) ++ tc.map (execToolCall env))
      ∧ (tc.map (execToolCall env)).length = tc.length
      ∧ ∀ i : Nat, (tc.map (execToolCall env))[i]?
          = (tc[i]?).map (fun call =>
              Message.tool (runTool env call.name call.arg) call.id) := by
  have hcm := call_model_eq oracle msgs c tc hor
  have htc : tc.isEmpty = false := by
    cases tc with
    | nil => exact absurd rfl hne
    | cons a l => rfl
  refine ⟨?_, by simp, ?_⟩
  · rw [runGraph_succ, hcm, should_continue_snoc, htc, tool_node_snoc]
    simp
  · intro i
    rw [List.getElem?_map]
    cases tc[i]? <;> rfl

/-- C1 witness at a concrete oracle, history and call list. -/
theorem claim1_witness :
    oracleToolOnce [] = ("using tool", [tc1]) ∧ ([tc1] : List ToolCall) ≠ [] ∧
    (runGraph env1 oracleToolOnce 1 []
        = runGraph env1 oracleToolOnce 0
            (([] ++ [Message.ai "using tool" [tc1]]) ++ [tc1].map (execToolCall env1))
      ∧ ([tc1].map (execToolCall env1)).length = ([tc1] : List ToolCall).length
      ∧ ∀ i : Nat, ([tc1].map (execToolCall env1))[i]?
          = (([tc1] : List ToolCall)[i]?).map (fun call =>
              Message.tool (runTool env1 call.name call.arg) call.id)) :=
  ⟨rfl, by decide, claim1_tool_results_per_reply env1 oracleToolOnce 0 [] "using tool" [tc1] rfl (by decide)⟩

/-- C2: a run of the loop returns a history exactly when its final message is
a model reply with zero tool calls; the loop stops as soon as the model
replies without tool calls; and the repository's loop has no round cap — a
model that requests a tool call on every reply keeps the loop running past
every bound. -/
theorem claim2_termination_no_cap (env : Env) (oracle : Oracle) :
    (∀ fuel msgs res, runGraph env oracle fuel msgs = some res →
        ∃ pre cf, res = pre ++ [Message.ai cf []])
    ∧ (∀ fuel msgs, (oracle msgs).2 = [] →
        runGraph env oracle (fuel + 1) msgs = some (msgs ++ [Message.ai (oracle msgs).1 []]))
    ∧ ((∀ m, (oracle m).2 ≠ []) → ∀ fuel msgs, runGraph env oracle fuel msgs = none) := by
  refine ⟨?_, ?_, ?_⟩
  · intro fuel
    induction fuel with
    | zero => intro msgs res h; exact absurd h (by simp [runGraph])
    | succ n ih =>
      intro msgs res h
      rw [runGraph_succ] at h
      by_cases hc : should_continue (call_model oracle msgs) = "continue"
      · rw [if_pos hc] at h
        exact ih _ _ h
      · rw [if_neg hc] at h
        rcases htc : (oracle msgs).2 with _ | ⟨t, ts⟩
        · refine ⟨msgs, (oracle msgs).1, ?_⟩
          have hcm : call_model oracle msgs = msgs ++ [Message.ai (oracle msgs).1 []] := by
            simp [call_model, htc]
          rw [hcm] at h
          exact (Option.some.inj h).symm
        · exfalso
          apply hc
          have hcm : call_model oracle msgs = msgs ++ [Message.ai (oracle msgs).1 (t :: ts)] := by
            simp [call_model, htc]
          rw [hcm, should_continue_snoc]
          rfl
  · intro fuel msgs h0
    have hcm : call_model oracle msgs = msgs ++ [Message.ai (oracle msgs).1 []] := by
      simp [call_model, h0]
    rw [runGraph_succ, hcm, should_continue_snoc]
    simp
  · intro hall fuel
    induction fuel with
    | zero => intro msgs; rfl
    | succ n ih =>
      intro msgs
      rw [runGraph_succ]
      have hcont : should_continue (call_model oracle msgs) = "continue" := by
        rcases htc : (oracle msgs).2 with _ | ⟨t, ts⟩
        · exact absurd htc (hall msgs)
        · have hcm : call_model oracle msgs = msgs ++ [Message.ai (oracle msgs).1 (t :: ts)] := by
            simp [call_model, htc]
          rw [hcm, should_continue_snoc]
          rfl
      rw [if_pos hcont]
      exact ih _

/-- C2 witness: the always-tool-calling oracle keeps the loop running past
fuel 5. -/
theorem claim2_witness :
    (∀ m, (oracleToolOnce m).2 ≠ []) ∧ runGraph env1 oracleToolOnce 5 [] = none :=
  ⟨fun _ => List.cons_ne_nil _ _,
   (claim2_termination_no_cap env1 oracleToolOnce).2.2 (fun _ => List.cons_ne_nil _ _) 5 []⟩

end Liminal

namespace Liminal

/-- C3 counterexample: a history already ending in a model reply with zero
tool calls is not returned unchanged — the graph's entry point is the model
node, so the model is consulted once more and its fresh reply is appended. -/
theorem claim3_counterexample :
    runGraph env1 oracleFinal 1 [Message.ai "done" []]
      ≠ some [Message.ai "done" []] := by decide

/-- C3 (amended): invoking the loop on a history ending in a model reply
with zero tool calls consults the model exactly once more; when the fresh
reply again declares zero tool calls, the invocation returns the history
with that one reply appended — a strict extension, never the unchanged
input. -/
theorem claim3_amended_extra_model_call (env : Env) (oracle : Oracle) (fuel : Nat)
    (msgs : List Message) (c0 c : String)
    (hlast : msgs.getLast? = some (Message.ai c0 []))
    (hor : oracle msgs = (c, [])) :
    runGraph env oracle (fuel + 1) msgs = some (msgs ++ [Message.ai c []])
      ∧ msgs ++ [Message.ai c []] ≠ msgs := by
  constructor
  · rw [runGraph_succ, call_model_eq oracle msgs c [] hor, should_continue_snoc]
    simp
  · intro hEq
    have hlen := congrArg List.length hEq
    simp at hlen

/-- C3 witness at a concrete history and oracle. -/
theorem claim3_witness :
    ([Message.ai "done" []] : List Message).getLast? = some (Message.ai "done" [])
    ∧ oracleFinal [Message.ai "done" []] = ("ok", [])
    ∧ (runGraph env1 oracleFinal 1 [Message.ai "done" []]
          = some ([Message.ai "done" []] ++ [Message.ai "ok" []])
        ∧ [Message.ai "done" []] ++ [Message.ai "ok" []] ≠ [Message.ai "done" []]) :=
  ⟨rfl, rfl,
   claim3_amended_extra_model_call env1 oracleFinal 0 [Message.ai "done" []] "done" "ok" rfl rfl⟩

/-- C4 counterexample: `Agent.run` appends the new user message to the
caller-supplied (non-empty) history list in place, so the caller's sequence
is changed by the call. -/
theorem claim4_counterexample :
    (Agent.run env1 oracleFinal 1 "hello" (some [Message.human "hi"])).2
      ≠ [Message.human "hi"] := by decide

/-- C4 (amended): when the caller supplies a non-empty history list,
`Agent.run` appends the new user `Message` to that very list
(`messages = conversation_history or []` aliases it, `append` mutates it),
so the caller's sequence ends up strictly extended; an absent or empty
history is replaced by a fresh list and the caller's own (empty) list is
untouched.  The loop's result is built from the extended history; individual
`Message` values are never mutated after creation. -/
theorem claim4_amended_caller_list (env : Env) (oracle : Oracle) (fuel : Nat)
    (input : String) (h : List Message) (hne : h ≠ []) :
    (Agent.run env oracle fuel input (some h)).2 = h ++ [Message.human input]
      ∧ (Agent.run env oracle fuel input (some h)).2 ≠ h
      ∧ (Agent.run env oracle fuel input (some h)).1
          = runGraph env oracle fuel (h ++ [Message.human input])
      ∧ (Agent.run env oracle fuel input (some [])).2 = []
      ∧ (Agent.run env oracle fuel input none).2 = [] := by
  have hne' : h.isEmpty = false := by
    cases h with
    | nil => exact absurd rfl hne
    | cons a l => rfl
  have hmain : (Agent.run env oracle fuel input (some h)).2 = h ++ [Message.human input] := by
    simp [Agent.run, hne']
  refine ⟨hmain, ?_, rfl, rfl, rfl⟩
  rw [hmain]
  intro hEq
  have hlen := congrArg List.length hEq
  simp at hlen

/-- C4 witness at a concrete non-empty caller history. -/
theorem claim4_witness :
    ([Message.human "hi"] : List Message) ≠ []
    ∧ ((Agent.run env1 oracleFinal 1 "hello" (some [Message.human "hi"])).2
          = [Message.human "hi"] ++ [Message.human "hello"]
        ∧ (Agent.run env1 oracleFinal 1 "hello" (some [Message.human "hi"])).2
            ≠ [Message.human "hi"]
        ∧ (Agent.run env1 oracleFinal 1 "hello" (some [Message.human "hi"])).1
            = runGraph env1 oracleFinal 1 ([Message.human "hi"] ++ [Message.human "hello"])
        ∧ (Agent.run env1 oracleFinal 1 "hello" (some [])).2 = []
        ∧ (Agent.run env1 oracleFinal 1 "hello" none).2 = []) :=
  ⟨by decide,
   claim4_amended_caller_list env1 oracleFinal 1 "hello" [Message.human "hi"] (by decide)⟩

/-- C9: `Config.MAX_ITERATIONS` is dead configuration — `main` constructs the
agent from the model name and temperature only, and no part of the loop reads
the maximum-iteration setting, so runs differing only in `MAX_ITERATIONS`
produce identical results. -/
theorem claim9_max_iterations_unused (llm : String → ℚ → Oracle) (env : Env)
    (cfg : Config) (fuel : Nat) (input : String) (history : Option (List Message))
    (m : ℤ) :
    mainStep llm env { cfg with MAX_ITERATIONS := m } fuel input history
      = mainStep llm env cfg fuel input history := rfl

end Liminal

namespace Liminal

/-! ## The sandbox boundary of `calculate` -/

mutual

/-- A short-circuit-free expression using an identifier outside `safe_dict`
never evaluates to a value: left-to-right evaluation reaches an error — the
`NameError` of the missing identifier, unless an earlier error fires
first.  (With a short-circuiting form the identifier can be shielded from
evaluation altogether; see the C5 counterexample.) -/
theorem evalExpr_err_of_unknown (a : PyExpr) (hsc : shortCircuitFree a = true)
    (h : usesUnknownName a = true) :
    ∃ err, evalExpr a = Except.error err :=
  match a, hsc, h with
  | PyExpr.intLit n, _, h => by simp [usesUnknownName, identsOf] at h
  | PyExpr.floatLit q, _, h => by simp [usesUnknownName, identsOf] at h
  | PyExpr.strLit s, _, h => by simp [usesUnknownName, identsOf] at h
  | PyExpr.ident x, _, h => by
    have hmem : x ∉ safe_dict := by simpa [usesUnknownName, identsOf] using h
    refine ⟨PyErr.nameError x, ?_⟩
    have h1 : x ≠ "pi" := fun hx => hmem (by rw [hx]; decide)
    have h2 : x ≠ "e" := fun hx => hmem (by rw [hx]; decide)
    simp [evalExpr, lookupName, h1, h2, hmem]
  | PyExpr.neg b, hsc, h => by
    have hscb : shortCircuitFree b = true := by simpa [shortCircuitFree] using hsc
    have hb : usesUnknownName b = true := by simpa [usesUnknownName, identsOf] using h
    obtain ⟨err, he⟩ := evalExpr_err_of_unknown b hscb hb
    exact ⟨err, by simp [evalExpr, he]⟩
  | PyExpr.add l r, hsc, h => by
    have hsc2 : shortCircuitFree l = true ∧ shortCircuitFree r = true := by
      simpa [shortCircuitFree, Bool.and_eq_true] using hsc
    have hor : usesUnknownName l = true ∨ usesUnknownName r = true := by
      simpa [usesUnknownName, identsOf, List.any_append, Bool.or_eq_true] using h
    cases hL : evalExpr l with
    | error e0 => exact ⟨e0, by simp [evalExpr, hL]⟩
    | ok va =>
      have hr : usesUnknownName r = true := by
        rcases hor with hl | hr
        · obtain ⟨e0, he⟩ := evalExpr_err_of_unknown l hsc2.1 hl
          rw [he] at hL
          cases hL
        · exact hr
      obtain ⟨err, he⟩ := evalExpr_err_of_unknown r hsc2.2 hr
      exact ⟨err, by simp [evalExpr, hL, he]⟩
  | PyExpr.sub l r, hsc, h => by
    have hsc2 : shortCircuitFree l = true ∧ shortCircuitFree r = true := by
      simpa [shortCircuitFree, Bool.and_eq_true] using hsc
    have hor : usesUnknownName l = true ∨ usesUnknownName r = true := by
      simpa [usesUnknownName, identsOf, List.any_append, Bool.or_eq_true] using h
    cases hL : evalExpr l with
    | error e0 => exact ⟨e0, by simp [evalExpr, hL]⟩
    | ok va =>
      have hr : usesUnknownName r = true := by
        rcases hor with hl | hr
        · obtain ⟨e0, he⟩ := evalExpr_err_of_unknown l hsc2.1 hl
          rw [he] at hL
          cases hL
        · exact hr
      obtain ⟨err, he⟩ := evalExpr_err_of_unknown r hsc2.2 hr
      exact ⟨err, by simp [evalExpr, hL, he]⟩
  | PyExpr.mul l r, hsc, h => by
    have hsc2 : shortCircuitFree l = true ∧ shortCircuitFree r = true := by
      simpa [shortCircuitFree, Bool.and_eq_true] using hsc
    have hor : usesUnknownName l = true ∨ usesUnknownName r = true := by
      simpa [usesUnknownName, identsOf, List.any_append, Bool.or_eq_true] using h
    cases hL : evalExpr l with
    | error e0 => exact ⟨e0, by simp [evalExpr, hL]⟩
    | ok va =>
      have hr : usesUnknownName r = true := by
        rcases hor with hl | hr
        · obtain ⟨e0, he⟩ := evalExpr_err_of_unknown l hsc2.1 hl
          rw [he] at hL
          cases hL
        · exact hr
      obtain ⟨err, he⟩ := evalExpr_err_of_unknown r hsc2.2 hr
      exact ⟨err, by simp [evalExpr, hL, he]⟩
  | PyExpr.div l r, hsc, h => by
    have hsc2 : shortCircuitFree l = true ∧ shortCircuitFree r = true := by
      simpa [shortCircuitFree, Bool.and_eq_true] using hsc
    have hor : usesUnknownName l = true ∨ usesUnknownName r = true := by
      simpa [usesUnknownName, identsOf, List.any_append, Bool.or_eq_true] using h
    cases hL : evalExpr l with
    | error e0 => exact ⟨e0, by simp [evalExpr, hL]⟩
    | ok va =>
      have hr : usesUnknownName r = true := by
        rcases hor with hl | hr
        · obtain ⟨e0, he⟩ := evalExpr_err_of_unknown l hsc2.1 hl
          rw [he] at hL
          cases hL
        · exact hr
      obtain ⟨err, he⟩ := evalExpr_err_of_unknown r hsc2.2 hr
      exact ⟨err, by simp [evalExpr, hL, he]⟩
  | PyExpr.boolAnd l r, hsc, _ => by simp [shortCircuitFree] at hsc
  | PyExpr.boolOr l r, hsc, _ => by simp [shortCircuitFree] at hsc
  | PyExpr.ifExp b t o, hsc, _ => by simp [shortCircuitFree] at hsc
  | PyExpr.call f args, hsc, h => by
    have hsc2 : shortCircuitFree f = true ∧ shortCircuitFreeList args = true := by
      simpa [shortCircuitFree, Bool.and_eq_true] using hsc
    have hor : usesUnknownName f = true
        ∨ (identsOfList args).any (fun x => ! safe_dict.contains x) = true := by
      simpa [usesUnknownName, identsOf, List.any_append, Bool.or_eq_true] using h
    cases hF : evalExpr f with
    | error e0 => exact ⟨e0, by simp [evalExpr, hF]⟩
    | ok fv =>
      have hargs : (identsOfList args).any (fun x => ! safe_dict.contains x) = true := by
        rcases hor with hf | ha
        · obtain ⟨e0, he⟩ := evalExpr_err_of_unknown f hsc2.1 hf
          rw [he] at hF
          cases hF
        · exact ha
      obtain ⟨err, he⟩ := evalArgs_err_of_unknown args hsc2.2 hargs
      exact ⟨err, by simp [evalExpr, hF, he]⟩

/-- As `evalExpr_err_of_unknown`, for an argument list evaluated left to
right. -/
theorem evalArgs_err_of_unknown (as : List PyExpr)
    (hsc : shortCircuitFreeList as = true)
    (h : (identsOfList as).any (fun x => ! safe_dict.contains x) = true) :
    ∃ err, evalArgs as = Except.error err :=
  match as, hsc, h with
  | [], _, h => by simp [identsOfList] at h
  | a :: rest, hsc, h => by
    have hsc2 : shortCircuitFree a = true ∧ shortCircuitFreeList rest = true := by
      simpa [shortCircuitFreeList, Bool.and_eq_true] using hsc
    have hor : usesUnknownName a = true
        ∨ (identsOfList rest).any (fun x => ! safe_dict.contains x) = true := by
      simpa [usesUnknownName, identsOfList, List.any_append, Bool.or_eq_true] using h
    cases hA : evalExpr a with
    | error e0 => exact ⟨e0, by simp [evalArgs, hA]⟩
    | ok v =>
      have hrest : (identsOfList rest).any (fun x => ! safe_dict.contains x) = true := by
        rcases hor with ha | hr
        · obtain ⟨e0, he⟩ := evalExpr_err_of_unknown a hsc2.1 ha
          rw [he] at hA
          cases hA
        · exact hr
      obtain ⟨err, he⟩ := evalArgs_err_of_unknown rest hsc2.2 hrest
      exact ⟨err, by simp [evalArgs, hA, he]⟩

end

end Liminal

namespace Liminal

/-- C6: the text statistics tool splits on whitespace for the word count and
counts `.`, `!`, `?` occurrences for the sentence estimate; on
`"Hi there. Go!"` it reports word count 3 and sentence count 2 (and the full
report renders those numbers). -/
theorem claim6_text_stats :
    word_count "Hi there. Go!" = 3
    ∧ sentence_count "Hi there. Go!" = 2
    ∧ text_analysis "Hi there. Go!"
        = "Text Analysis Results:\n- Word count: 3\n- Character count: 13\n- Characters (no spaces): 11\n- Estimated sentences: 2\n- Average word length: 3.67 characters" :=
  ⟨rfl, rfl, rfl⟩

/-- First knowledge-base key in dict order: any query whose lowering contains
`"python"` gets the Python fact, whatever else it contains. -/
theorem search_kb_python_case (query : String)
    (h : strContainsSub (strToLower query) "python" = true) :
    search_knowledge_base query = python_fact := by
  simp only [search_knowledge_base, knowledge_base]
  rw [List.find?_cons_of_pos _ (by simpa using h)]

/-- Second key: reached only when `"python"` does not occur. -/
theorem search_kb_langgraph_case (query : String)
    (h1 : strContainsSub (strToLower query) "python" = false)
    (h2 : strContainsSub (strToLower query) "langgraph" = true) :
    search_knowledge_base query = langgraph_fact := by
  simp only [search_knowledge_base, knowledge_base]
  rw [List.find?_cons_of_neg _ (by simp [h1]), List.find?_cons_of_pos _ (by simpa using h2)]

/-- Third key: reached only when neither earlier key occurs. -/
theorem search_kb_ai_case (query : String)
    (h1 : strContainsSub (strToLower query) "python" = false)
    (h2 : strContainsSub (strToLower query) "langgraph" = false)
    (h3 : strContainsSub (strToLower query) "ai" = true) :
    search_knowledge_base query = ai_fact := by
  simp only [search_knowledge_base, knowledge_base]
  rw [List.find?_cons_of_neg _ (by simp [h1]), List.find?_cons_of_neg _ (by simp [h2]),
    List.find?_cons_of_pos _ (by simpa using h3)]

/-- C7: the lookup tool matches case-insensitively by substring — every
query containing `"python"` in any letter case yields the Python fact, and
`"zzz"` yields the not-found sentinel. -/
theorem claim7_lookup :
    (∀ query : String, strContainsSub (strToLower query) "python" = true →
        search_knowledge_base query = python_fact)
    ∧ search_knowledge_base "zzz" = "No information found for query: zzz" :=
  ⟨search_kb_python_case, rfl⟩

/-- C7 witness: a mixed-case query containing `python`. -/
theorem claim7_witness :
    strContainsSub (strToLower "Tell me about PyThOn methods") "python" = true
    ∧ search_knowledge_base "Tell me about PyThOn methods" = python_fact :=
  ⟨by decide, claim7_lookup.1 "Tell me about PyThOn methods" (by decide)⟩

/-- C10: key matching follows the fixed dict order python, langgraph, ai,
the first match winning; in particular `"explain"` (which contains `"ai"`
inside a word and no earlier key) gets the AI fact rather than the
sentinel, and a query containing both `"python"` and `"ai"` gets the Python
fact. -/
theorem claim10_lookup_order :
    (∀ query : String, strContainsSub (strToLower query) "python" = true →
        search_knowledge_base query = python_fact)
    ∧ (∀ query : String, strContainsSub (strToLower query) "python" = false →
        strContainsSub (strToLower query) "langgraph" = true →
        search_knowledge_base query = langgraph_fact)
    ∧ (∀ query : String, strContainsSub (strToLower query) "python" = false →
        strContainsSub (strToLower query) "langgraph" = false →
        strContainsSub (strToLower query) "ai" = true →
        search_knowledge_base query = ai_fact)
    ∧ search_knowledge_base "explain" = ai_fact
    ∧ search_knowledge_base "python ai" = python_fact :=
  ⟨search_kb_python_case, search_kb_langgraph_case, search_kb_ai_case, rfl, rfl⟩

/-- C10 witness: the three order hypotheses discharged at `"explain"`. -/
theorem claim10_witness :
    strContainsSub (strToLower "explain") "python" = false
    ∧ strContainsSub (strToLower "explain") "langgraph" = false
    ∧ strContainsSub (strToLower "explain") "ai" = true
    ∧ search_knowledge_base "explain" = ai_fact :=
  ⟨by decide, by decide, by decide,
   claim10_lookup_order.2.2.1 "explain" (by decide) (by decide) (by decide)⟩

/-! ## The receipt poller -/

/-- A pending poll payload. -/
def pendingPayload : Payload := ⟨some "pending", none, "pending body"⟩

/-- A done poll payload. -/
def donePayload : Payload := ⟨some "done", some true, "done body"⟩

/-- A failed poll payload. -/
def failedPayload : Payload := ⟨some "failed", none, "failed body"⟩

/-- The status sequence pending, pending, done. -/
def seqPPD : Nat → Payload := fun k => if k < 2 then pendingPayload else donePayload

/-- One polling round from a positive fuel budget, in source check order:
done, failed, deadline, re-poll. -/
theorem poll_succ (responses : Nat → Payload) (poll_every_s timeout_s : ℚ)
    (fuel k : Nat) :
    tabscanner_poll_result responses poll_every_s timeout_s (fuel + 1) k =
      if (responses k).status = some "done" ∧ (responses k).success.getD true = true then
        some (Except.ok (responses k))
      else if (responses k).status = some "failed" ∨ (responses k).success = some false then
        some (Except.error (PollErr.runtimeFailed (responses k)))
      else if Rat.blt timeout_s (ratMul (k : ℚ) poll_every_s) then
        some (Except.error (PollErr.timedOut (responses k)))
      else tabscanner_poll_result responses poll_every_s timeout_s fuel (k + 1) := rfl

/-- C8: on statuses pending, pending, done the poller returns the done
payload; a first-poll failed status raises the failure error at once, for
every caller-supplied timeout; the deadline raises the distinct timeout
error; and the two error conditions can never be confused. -/
theorem claim8_poller :
    tabscanner_poll_result seqPPD 1 60 10 0 = some (Except.ok donePayload)
    ∧ (∀ (responses : Nat → Payload) (timeout_s : ℚ) (fuel : Nat),
        (responses 0).status = some "failed" →
        tabscanner_poll_result responses 1 timeout_s (fuel + 1) 0
          = some (Except.error (PollErr.runtimeFailed (responses 0))))
    ∧ tabscanner_poll_result (fun _ => pendingPayload) 1 0 2 0
        = some (Except.error (PollErr.timedOut pendingPayload))
    ∧ (∀ p1 p2 : Payload, PollErr.runtimeFailed p1 ≠ PollErr.timedOut p2) := by
  refine ⟨rfl, ?_, rfl, fun p1 p2 hc => by cases hc⟩
  intro responses timeout_s fuel h
  have h1 : ¬((responses 0).status = some "done" ∧ (responses 0).success.getD true = true) := by
    rintro ⟨hd, _⟩
    rw [h] at hd
    simp at hd
  have h2 : (responses 0).status = some "failed" ∨ (responses 0).success = some false :=
    Or.inl h
  rw [poll_succ, if_neg h1, if_pos h2]

/-- C8 witness: the failed-status hypothesis discharged at a concrete
response sequence and timeout. -/
theorem claim8_witness :
    ((fun _ => failedPayload : Nat → Payload) 0).status = some "failed"
    ∧ tabscanner_poll_result (fun _ => failedPayload) 1 90 1 0
        = some (Except.error (PollErr.runtimeFailed ((fun _ => failedPayload : Nat → Payload) 0))) :=
  ⟨rfl, claim8_poller.2.1 (fun _ => failedPayload) 90 0 rfl⟩

end Liminal
